import Mathlib

/-!
Verification of the Agent Twin browser client.

This file shallowly embeds the client-side logic of the Agent Twin
frontend (voice.js, chat.js, auth.js and the public voice page) and
proves properties of the embedded definitions:

* the conversation data model and the context window sent to the
  backend (`slice(-10)` in `handleVoiceInput` / `sendMessage`);
* the response handling of the voice-interaction controller
  (`handleVoiceInput` in voice.js lines 340-394);
* the setup-mode recording flow: `mediaRecorder.onstop`,
  `uploadRecording`, and the exceptional paths of
  `startSetupRecording`;
* the recording-start guards and the section gating of the two
  recording modes;
* the `speakResponse` text-to-speech path of the chat surface;
* the `handleFiles` dedupe of the onboarding file picker.

Network responses, the microphone, and playback success are modelled
as explicit parameters; DOM-only effects (css classes, log output) are
elided.  Status updates (`updateStatus`) and waveform changes
(`setWaveformState`) are recorded as traces because the state
machine of the spec is phrased in terms of them.
-/

namespace AgentTwin

/-! ## Conversation data model (voice.js line 10, chat.js line 8) -/

/-- A conversation turn role: the JS objects store `role: "user"` or
`role: "assistant"`. -/
inductive Role
  | user
  | assistant
  deriving DecidableEq, Repr

/-- One entry of `conversationHistory`: `{role, content}`. -/
structure Turn where
  role : Role
  content : String
  deriving DecidableEq, Repr

/-- JS `history.slice(-10)`: the at-most-10 most recent entries of the
history, in their original order (the whole list when it has at most
ten entries). -/
def sliceLast10 (h : List Turn) : List Turn :=
  h.drop (h.length - 10)

/-- Executable model of the JS `String.prototype.trim` used by the
blank-input checks: strips leading and trailing whitespace, working on
the character list so that it evaluates inside the kernel. -/
def jsTrim (s : String) : String :=
  ⟨((s.data.dropWhile Char.isWhitespace).reverse.dropWhile
      Char.isWhitespace).reverse⟩

/-! ## The ask exchange of the voice pages

`handleVoiceInput` (voice.js lines 340-394; the public page in the
unnamed source file has the same structure with the public endpoint).
The fetch response is abstracted as `AskResponse`: either the request
failed at the HTTP level (network error or `!response.ok`, both of
which throw into the same catch block), or a JSON body arrived. -/

/-- Abstracted response of the `/voice/ask/` endpoint. -/
inductive AskResponse
  | httpFailure (msg : String)
  | body (success : Bool) (response_text : String)
      (audio_url : Option String) (err : Option String)
  deriving DecidableEq, Repr

/-- The request `handleVoiceInput` sends: endpoint, `text`, and the
`conversation_history` field of the JSON body. -/
structure AskRequest where
  endpoint : String
  text : String
  conversation_history : List Turn
  deriving DecidableEq, Repr

/-- Waveform css states set by `setWaveformState` (voice.js 429-437):
the empty string (idle), `listening`, `processing`, `active`. -/
inductive WaveformState
  | idle
  | listening
  | processing
  | active
  deriving DecidableEq, Repr

/-- Status types passed to `updateStatus` (voice.js 439-473). -/
inductive StatusType
  | ready
  | listening
  | processing
  | speaking
  | error
  deriving DecidableEq, Repr

/-- Everything observable about one `handleVoiceInput` run: the
conversation history afterwards, the fetch requests issued, the url
handed to `playAudio` (none when playback never starts), the sequence
of `updateStatus` types, the final waveform state, and the surfaced
error message if any. -/
structure VoiceOutcome where
  history : List Turn
  requests : List AskRequest
  playedAudio : Option String
  statusTrace : List StatusType
  finalWaveform : WaveformState
  surfacedError : Option String
  deriving DecidableEq, Repr

/-- Model of `handleVoiceInput` (voice.js lines 340-394).

* Empty or whitespace-only `text`: reset to ready, no request.
* Otherwise the user turn is pushed onto `conversationHistory`
  (line 348) and one POST is made whose body carries
  `conversationHistory.slice(-10)` (line 362).
* `!response.ok` and network errors throw into the catch block; a
  `success:false` body throws `data.error` or a default message
  (line 387); the catch surfaces the message with status `error` and
  the empty waveform (lines 391-392).
* On `success:true` the assistant turn is pushed (line 375); with an
  `audio_url` the controller shows `speaking` and awaits `playAudio`
  (`playOk` abstracts whether playback completes or errors); without
  one it goes straight back to ready (lines 383-384). -/
def handleVoiceInput (hist : List Turn) (text : String) (resp : AskResponse)
    (playOk : Bool) : VoiceOutcome :=
  if jsTrim text = "" then
    { history := hist, requests := [], playedAudio := none,
      statusTrace := [.ready], finalWaveform := .idle, surfacedError := none }
  else
    let hist1 := hist ++ [Turn.mk .user text]
    let req : AskRequest := ⟨"/voice/ask/", text, sliceLast10 hist1⟩
    match resp with
    | .httpFailure msg =>
        { history := hist1, requests := [req], playedAudio := none,
          statusTrace := [.processing, .error], finalWaveform := .idle,
          surfacedError := some msg }
    | .body success response_text audio_url err =>
        if success then
          let hist2 := hist1 ++ [Turn.mk .assistant response_text]
          match audio_url with
          | some url =>
              if playOk then
                { history := hist2, requests := [req], playedAudio := some url,
                  statusTrace := [.processing, .speaking, .ready],
                  finalWaveform := .idle, surfacedError := none }
              else
                { history := hist2, requests := [req], playedAudio := some url,
                  statusTrace := [.processing, .speaking, .error, .error],
                  finalWaveform := .idle,
                  surfacedError := some "Error playing audio" }
          | none =>
              { history := hist2, requests := [req], playedAudio := none,
                statusTrace := [.processing, .ready], finalWaveform := .idle,
                surfacedError := none }
        else
          { history := hist1, requests := [req], playedAudio := none,
            statusTrace := [.processing, .error], finalWaveform := .idle,
            surfacedError := some (err.getD "Failed to get response") }

/-- An ask exchange counts as failed when the HTTP layer failed or the
body reported `success:false` (voice.js lines 366-368 and 386-388). -/
def askFailed : AskResponse → Bool
  | .httpFailure _ => true
  | .body success _ _ _ => !success

/-! ## The generate exchange of the chat surface

`sendMessage` (chat.js lines 148-231). -/

/-- Abstracted response of the `/generate/` endpoint. -/
inductive GenResponse
  | httpFailure (msg : String)
  | body (success : Bool) (generated_content : String) (err : Option String)
  deriving DecidableEq, Repr

/-- The request `sendMessage` sends: endpoint, `prompt`, and the
`conversation_history` field of the JSON body. -/
structure GenRequest where
  endpoint : String
  prompt : String
  conversation_history : List Turn
  deriving DecidableEq, Repr

/-- Observable outcome of one `sendMessage` run.  `uiError` is the
error text added to the message pane (not to `conversationHistory`). -/
structure ChatOutcome where
  history : List Turn
  requests : List GenRequest
  uiError : Option String
  deriving DecidableEq, Repr

/-- Model of `sendMessage` (chat.js lines 148-231): trims the textarea
content, returns early when empty, pushes the user turn, sends one
POST to `/generate/` with `conversationHistory.slice(-10)`
(line 186), pushes the assistant turn on `success:true`, and shows an
error message (without touching the history) on HTTP failure or
`success:false`. -/
def sendMessage (hist : List Turn) (rawInput : String) (resp : GenResponse) :
    ChatOutcome :=
  let text := jsTrim rawInput
  if text = "" then
    { history := hist, requests := [], uiError := none }
  else
    let hist1 := hist ++ [Turn.mk .user text]
    let req : GenRequest := ⟨"/generate/", text, sliceLast10 hist1⟩
    match resp with
    | .httpFailure msg =>
        { history := hist1, requests := [req], uiError := some msg }
    | .body true content _ =>
        { history := hist1 ++ [Turn.mk .assistant content], requests := [req],
          uiError := none }
    | .body false _ err =>
        { history := hist1, requests := [req],
          uiError := some (err.getD "Generation failed") }

/-! ## Text-to-speech in the chat surface

`speakResponse` (chat.js lines 642-662).  `window.speechSynthesis` is
modelled by its queue of utterances: `cancel()` empties the queue,
`speak(u)` appends `u`. -/

/-- The utterance queue of `window.speechSynthesis`. -/
structure SpeechSynthState where
  queue : List String
  deriving DecidableEq, Repr

/-- Model of `window.speechSynthesis.cancel()`: drops every queued or playing
utterance. -/
def speechSynthesisCancel (_s : SpeechSynthState) : SpeechSynthState :=
  { queue := [] }

/-- Model of `window.speechSynthesis.speak(u)`: appends the utterance. -/
def speechSynthesisSpeak (text : String) (s : SpeechSynthState) :
    SpeechSynthState :=
  { queue := s.queue ++ [text] }

/-- Model of `speakResponse` (chat.js lines 642-662): a no-op when the
host has no `speechSynthesis`; otherwise cancels any ongoing speech
and then speaks the new utterance. -/
def speakResponse (supported : Bool) (text : String) (s : SpeechSynthState) :
    SpeechSynthState :=
  if supported = false then s
  else speechSynthesisSpeak text (speechSynthesisCancel s)

/-! ## Onboarding file picker

`handleFiles` (auth.js lines 190-198).  A JS `File` is compared only
by `name` and `size` there, so those two fields model it. -/

/-- The fields of a selected file that `handleFiles` inspects. -/
structure FileEntry where
  name : String
  size : Nat
  deriving DecidableEq, Repr

/-- The dedupe test of auth.js line 192:
`f.name === file.name && f.size === file.size`. -/
def fileMatches (f g : FileEntry) : Bool :=
  f.name == g.name && f.size == g.size

/-- Model of `handleFiles` (auth.js lines 190-198): for each incoming
file in order, push it onto `selectedFiles` unless some already
selected file has the same name and size.  `selectedFiles` is mutated
during the iteration, so files pushed earlier in the same batch are
seen by the check for later ones; the fold reproduces that. -/
def handleFiles (selectedFiles : List FileEntry) (files : List FileEntry) :
    List FileEntry :=
  files.foldl
    (fun sel file =>
      if sel.any (fun f => fileMatches f file) then sel else sel ++ [file])
    selectedFiles

/-! ## Setup-mode voice sample capture

The one-shot recording flow of voice.js: `startSetupRecording`
(lines 475-599), `mediaRecorder.onstop` (lines 520-542),
`uploadRecording` (lines 710-750). -/

/-- One `dataavailable` event payload from the `MediaRecorder`, as a
byte sequence. -/
structure Chunk where
  bytes : List Nat
  deriving DecidableEq, Repr

/-- The chunk size, `event.data.size`. -/
def Chunk.size (c : Chunk) : Nat :=
  c.bytes.length

/-- Model of `ondataavailable` (voice.js lines 507-512): every chunk of
positive size is pushed onto `audioChunks`, in arrival order. -/
def bufferChunks (events : List Chunk) : List Chunk :=
  events.filter (fun c => decide (0 < c.size))

/-- Model of `new Blob(audioChunks, ...)` (voice.js line 530): the
chunks concatenated in order. -/
def assembleBlob (audioChunks : List Chunk) : List Nat :=
  (audioChunks.map Chunk.bytes).flatten

/-- One call to the upload endpoint made by `uploadRecording`: the
multipart form field name, the `File` name given to the blob, and the
blob bytes. -/
structure UploadRequest where
  endpoint : String
  fieldName : String
  fileName : String
  payload : List Nat
  deriving DecidableEq, Repr

/-- Abstracted response of the `/voice/upload-sample/` endpoint. -/
inductive UploadResponse
  | httpFailure (msg : String)
  | body (success : Bool) (err : Option String)
  deriving DecidableEq, Repr

/-- Setup-flow UI states, read off the recording status text:
`Ready to record` / `Recording...` / `Uploading...` / `Success!`. -/
inductive SetupUI
  | NotRecording
  | Recording
  | Uploading
  | Done
  deriving DecidableEq, Repr

/-- Outcome of `uploadRecording` (voice.js lines 710-750). -/
structure UploadOutcome where
  requests : List UploadRequest
  message : Option String
  finalUI : SetupUI
  deriving DecidableEq, Repr

/-- Model of `uploadRecording` (voice.js lines 710-750): wraps the
blob in a `File` named `voice-sample.webm`, appends it to form data
under field `audio_file`, and POSTs it once to
`/voice/upload-sample/`.  On `success:true` a success message is shown
and the page reloads (state `Done`); on HTTP failure or
`success:false` the error is surfaced and the status text returns to
`Ready to record`. -/
def uploadRecording (audioBlob : List Nat) (resp : UploadResponse) :
    UploadOutcome :=
  let req : UploadRequest :=
    ⟨"/voice/upload-sample/", "audio_file", "voice-sample.webm", audioBlob⟩
  match resp with
  | .httpFailure msg =>
      { requests := [req], message := some msg, finalUI := .NotRecording }
  | .body true _ =>
      { requests := [req],
        message := some "Voice clone created successfully! Reloading...",
        finalUI := .Done }
  | .body false err =>
      { requests := [req],
        message := some (err.getD "Failed to create voice clone"),
        finalUI := .NotRecording }

/-- The expression `(Date.now() - recordingStartTime) / 1000` (voice.js line 526),
in exact rational seconds; `startMs` and `stopMs` are the two
`Date.now()` readings in milliseconds. -/
def elapsedSeconds (startMs stopMs : Nat) : ℚ :=
  ((stopMs : ℚ) - (startMs : ℚ)) / 1000

/-- Observable outcome of the `mediaRecorder.onstop` handler.
`tracksStopped` records whether `stream.getTracks()` were all
stopped. -/
structure OnstopOutcome where
  tracksStopped : Bool
  requests : List UploadRequest
  message : Option String
  finalUI : SetupUI
  deriving DecidableEq, Repr

/-- Model of `mediaRecorder.onstop` (voice.js lines 520-542): stops
every track of the acquired stream, computes the elapsed wall-clock
duration from the recording start timestamp, assembles the blob, and
either rejects the recording locally (shorter than 30 seconds: error
message, UI reset, no upload) or hands the blob to
`uploadRecording`.  The interpolated rounded duration in the
too-short message is elided. -/
def mediaRecorderOnstop (startMs stopMs : Nat) (audioChunks : List Chunk)
    (resp : UploadResponse) : OnstopOutcome :=
  let audioBlob := assembleBlob audioChunks
  if elapsedSeconds startMs stopMs < 30 then
    { tracksStopped := true, requests := [],
      message := some "Recording too short. Please record at least 30 seconds.",
      finalUI := .NotRecording }
  else
    let u := uploadRecording audioBlob resp
    { tracksStopped := true, requests := u.requests, message := u.message,
      finalUI := u.finalUI }

/-- The distinguishable ways one setup-recording attempt can run,
after the user presses the setup record control:

* `micDenied`: `getUserMedia` rejects (no track acquired);
* `setupFailure`: `getUserMedia` resolved but `new MediaRecorder(...)`
  or `mediaRecorder.start(1000)` threw, landing in the catch block of
  `startSetupRecording` (voice.js lines 585-598);
* `recorded`: recording ran and was stopped normally
  (`stopSetupRecording` → `mediaRecorder.stop()` → `onstop`);
* `recorderError`: `mediaRecorder.onerror` fired (voice.js
  lines 514-518), which surfaces the error and calls
  `stopSetupRecording`, funnelling into `onstop` as well. -/
inductive SetupRun
  | micDenied (errName errMsg : String)
  | setupFailure (errMsg : String)
  | recorded (startMs stopMs : Nat) (audioChunks : List Chunk)
      (resp : UploadResponse)
  | recorderError (errMsg : String) (startMs stopMs : Nat)
      (audioChunks : List Chunk) (resp : UploadResponse)
  deriving DecidableEq, Repr

/-- Observable outcome of one whole setup-recording attempt.
`micAcquired`: `getUserMedia` resolved with a stream.
`tracksReleased`: no input device track of that stream is left active
when the attempt is over (vacuously true when none was acquired). -/
structure SetupRunOutcome where
  micAcquired : Bool
  tracksReleased : Bool
  requests : List UploadRequest
  finalUI : SetupUI
  deriving DecidableEq, Repr

/-- Model of one full setup-recording attempt
(voice.js lines 475-663).  On `micDenied` and `setupFailure` the catch
block shows a message and calls `resetRecordingUI`; it stops no
tracks, so a stream acquired before a `setupFailure` stays live.  The
`recorded` and `recorderError` paths reach `onstop`, whose first
action stops every track. -/
def startSetupRecordingRun : SetupRun → SetupRunOutcome
  | .micDenied _ _ =>
      { micAcquired := false, tracksReleased := true, requests := [],
        finalUI := .NotRecording }
  | .setupFailure _ =>
      { micAcquired := true, tracksReleased := false, requests := [],
        finalUI := .NotRecording }
  | .recorded startMs stopMs audioChunks resp =>
      let o := mediaRecorderOnstop startMs stopMs audioChunks resp
      { micAcquired := true, tracksReleased := o.tracksStopped,
        requests := o.requests, finalUI := o.finalUI }
  | .recorderError _ startMs stopMs audioChunks resp =>
      let o := mediaRecorderOnstop startMs stopMs audioChunks resp
      { micAcquired := true, tracksReleased := o.tracksStopped,
        requests := o.requests, finalUI := o.finalUI }

/-! ## Recording-start guards and section gating

The two recording modes of the voice page share one module state:
`isRecording` (conversational, speech recognition) and
`isRecordingSetup` (setup capture).  The session counters count
capture sessions actually started, to express "no duplicate capture
session is created". -/

/-- The recording-related module state of voice.js, plus which UI
section is displayed (`loadVoiceProfile` shows exactly one of the
setup and conversation sections, lines 108-132). -/
structure VoicePageState where
  showSetup : Bool
  isRecording : Bool
  isRecordingSetup : Bool
  recognitionSessions : Nat
  mediaSessions : Nat
  deriving DecidableEq, Repr

/-- Model of `startRecording` (voice.js lines 296-316): returns
immediately when `recognition` is null or `isRecording` is already
set; otherwise sets `isRecording` and starts one recognition capture
session.  `recognitionOk = false` also covers `recognition.start()`
throwing, where the catch calls `stopRecording` and the flags end
unchanged. -/
def startRecording (recognitionOk : Bool) (s : VoicePageState) :
    VoicePageState :=
  if recognitionOk = false ∨ s.isRecording then s
  else
    { s with isRecording := true,
             recognitionSessions := s.recognitionSessions + 1 }

/-- Model of `stopRecording` (voice.js lines 318-338): returns when
not recording, otherwise clears `isRecording` and stops the
recognizer. -/
def stopRecording (s : VoicePageState) : VoicePageState :=
  if s.isRecording = false then s else { s with isRecording := false }

/-- Model of the state effect of `startSetupRecording` (voice.js
lines 475-599): returns immediately when `isRecordingSetup` is already
set (lines 478-481, before any media access); otherwise, when the
media pipeline comes up (`ok`), starts one `MediaRecorder` session and
sets the flag; on failure the catch leaves the flag clear. -/
def startSetupRecording (ok : Bool) (s : VoicePageState) : VoicePageState :=
  if s.isRecordingSetup then s
  else if ok then
    { s with isRecordingSetup := true, mediaSessions := s.mediaSessions + 1 }
  else s

/-- Model of the state effect of `stopSetupRecording` (voice.js
lines 615-663): returns when not recording, otherwise stops the
recorder and clears the flag. -/
def stopSetupRecording (s : VoicePageState) : VoicePageState :=
  if s.isRecordingSetup = false then s else { s with isRecordingSetup := false }

/-- The events that drive the recording flags.  The two record
buttons live in the disjoint setup and conversation sections, of which
only one is displayed, so a press event carries the gate of its
section.  `profileLoaded` is the asynchronous completion of
`loadVoiceProfile` (voice.js lines 74-132): its fetch resolves at an
arbitrary later time and then swaps the displayed section, carrying
the computed `showSetup` decision (true when the profile is inactive
or the fetch failed).  It inspects neither recording flag and stops
nothing, so it can fire while a setup recording started in the
default-shown setup section is still active. -/
inductive UiEvent
  | pressRecord (recognitionOk : Bool)
  | releaseRecord
  | recognitionEnd
  | pressSetupRecord (ok : Bool)
  | releaseSetupRecord
  | profileLoaded (setupShown : Bool)
  deriving DecidableEq, Repr

/-- One UI event step.  Presses and releases of a button only fire
when its section is the displayed one; `recognition.onend` fires
regardless; `profileLoaded` swaps the displayed section without
touching the recording state. -/
def uiStep (s : VoicePageState) (e : UiEvent) : VoicePageState :=
  match e with
  | .pressRecord recognitionOk =>
      if s.showSetup then s else startRecording recognitionOk s
  | .releaseRecord => if s.showSetup then s else stopRecording s
  | .recognitionEnd => stopRecording s
  | .pressSetupRecord ok =>
      if s.showSetup then startSetupRecording ok s else s
  | .releaseSetupRecord => if s.showSetup then stopSetupRecording s else s
  | .profileLoaded setupShown => { s with showSetup := setupShown }

/-- The page state right after `DOMContentLoaded`: the setup section
is shown by default (voice.js lines 28-35) and no recording is active
in either mode, no capture session started. -/
def initState (showSetup : Bool) : VoicePageState :=
  ⟨showSetup, false, false, 0, 0⟩

/-- Run a sequence of UI events from a state. -/
def runEvents (s : VoicePageState) (es : List UiEvent) : VoicePageState :=
  es.foldl uiStep s

/-- The section-gating invariant of the voice page: a conversational
recording only runs while the conversation section is displayed, and a
setup recording only while the setup section is. -/
def sectionInv (s : VoicePageState) : Prop :=
  (s.isRecording = true → s.showSetup = false) ∧
  (s.isRecordingSetup = true → s.showSetup = true)

/-! ## Theorems -/

/-- The outgoing context window never has more than ten entries. -/
theorem sliceLast10_length_le (h : List Turn) : (sliceLast10 h).length ≤ 10 := by
  unfold sliceLast10
  rw [List.length_drop]
  omega

/-- The outgoing context window is a suffix of the history it is taken
from: the most recent entries, in their original order. -/
theorem sliceLast10_suffix (h : List Turn) : sliceLast10 h <:+ h :=
  List.drop_suffix _ _

/-- The second-to-last entry of a history always survives the window
truncation. -/
theorem mem_sliceLast10_append_two (h : List Turn) (a b : Turn) :
    a ∈ sliceLast10 (h ++ [a, b]) := by
  unfold sliceLast10
  have hlen : (h ++ [a, b]).length = h.length + 2 := by simp
  rw [hlen, List.drop_append_of_le_length (by omega)]
  simp

/-- The requests issued by one `handleVoiceInput` run: none for blank
input, otherwise exactly one POST carrying the windowed history. -/
theorem handleVoiceInput_requests (hist : List Turn) (text : String)
    (resp : AskResponse) (playOk : Bool) :
    (handleVoiceInput hist text resp playOk).requests =
      if jsTrim text = "" then []
      else [⟨"/voice/ask/", text, sliceLast10 (hist ++ [Turn.mk .user text])⟩] := by
  rcases resp with msg | ⟨success, rt, au, e⟩
  · by_cases hs : jsTrim text = "" <;> simp [handleVoiceInput, hs]
  · by_cases hs : jsTrim text = "" <;> cases success <;> cases au <;>
      cases playOk <;> simp [handleVoiceInput, hs]

/-- For non-blank input, the local history after `handleVoiceInput`
extends the pre-request history (old turns plus the new user turn):
nothing is removed. -/
theorem handleVoiceInput_history_prefix (hist : List Turn) (text : String)
    (resp : AskResponse) (playOk : Bool) (hs : ¬ jsTrim text = "") :
    hist ++ [Turn.mk .user text] <+:
      (handleVoiceInput hist text resp playOk).history := by
  rcases resp with msg | ⟨success, rt, au, e⟩
  · simp [handleVoiceInput, hs]
  · cases success <;> cases au <;> cases playOk <;>
      simp [handleVoiceInput, hs]

/-- The requests issued by one `sendMessage` run. -/
theorem sendMessage_requests (hist : List Turn) (rawInput : String)
    (resp : GenResponse) :
    (sendMessage hist rawInput resp).requests =
      if jsTrim rawInput = "" then []
      else [⟨"/generate/", jsTrim rawInput,
              sliceLast10 (hist ++ [Turn.mk .user (jsTrim rawInput)])⟩] := by
  rcases resp with msg | ⟨success, content, e⟩
  · by_cases hs : jsTrim rawInput = "" <;> simp [sendMessage, hs]
  · by_cases hs : jsTrim rawInput = "" <;> cases success <;>
      simp [sendMessage, hs]

/-- For non-blank input, the local history after `sendMessage` extends
the pre-request history. -/
theorem sendMessage_history_prefix (hist : List Turn) (rawInput : String)
    (resp : GenResponse) (hs : ¬ jsTrim rawInput = "") :
    hist ++ [Turn.mk .user (jsTrim rawInput)] <+:
      (sendMessage hist rawInput resp).history := by
  rcases resp with msg | ⟨success, content, e⟩
  · simp [sendMessage, hs]
  · cases success <;> simp [sendMessage, hs]

/-- C1: for every conversation history, every request sent to the
backend ask endpoint (and to the generate endpoint) carries at most
the 10 most recent turns of the local history at send time, in their
original order (a suffix of that history), and sending a request does
not remove any turn from the local history (the pre-request history,
user turn included, is a prefix of the resulting history). -/
theorem C1_context_window_bounded (hist : List Turn) (text : String)
    (resp : AskResponse) (playOk : Bool) (gresp : GenResponse) :
    (∀ r ∈ (handleVoiceInput hist text resp playOk).requests,
        r.conversation_history.length ≤ 10 ∧
        r.conversation_history <:+ hist ++ [Turn.mk Role.user text] ∧
        hist ++ [Turn.mk Role.user text] <+:
          (handleVoiceInput hist text resp playOk).history) ∧
    (∀ r ∈ (sendMessage hist text gresp).requests,
        r.conversation_history.length ≤ 10 ∧
        r.conversation_history <:+ hist ++ [Turn.mk Role.user (jsTrim text)] ∧
        hist ++ [Turn.mk Role.user (jsTrim text)] <+:
          (sendMessage hist text gresp).history) := by
  constructor
  · intro r hr
    rw [handleVoiceInput_requests] at hr
    by_cases hs : jsTrim text = ""
    · simp [hs] at hr
    · rw [if_neg hs, List.mem_singleton] at hr
      subst hr
      exact ⟨sliceLast10_length_le _, sliceLast10_suffix _,
        handleVoiceInput_history_prefix hist text resp playOk hs⟩
  · intro r hr
    rw [sendMessage_requests] at hr
    by_cases hs : jsTrim text = ""
    · simp [hs] at hr
    · rw [if_neg hs, List.mem_singleton] at hr
      subst hr
      exact ⟨sliceLast10_length_le _, sliceLast10_suffix _,
        sendMessage_history_prefix hist text gresp hs⟩

/-- Witness for C1 at a concrete input. -/
theorem C1_context_window_bounded_witness :
    (AskRequest.mk "/voice/ask/" "hi"
        (sliceLast10 [Turn.mk Role.user "hi"])).conversation_history.length ≤ 10 ∧
    (AskRequest.mk "/voice/ask/" "hi"
        (sliceLast10 [Turn.mk Role.user "hi"])).conversation_history <:+
      [] ++ [Turn.mk Role.user "hi"] := by
  have h :=
    (C1_context_window_bounded [] "hi" (.body true "ok" none none) true
      (.body true "ok" none)).1
      (AskRequest.mk "/voice/ask/" "hi" (sliceLast10 [Turn.mk Role.user "hi"]))
      (by rw [handleVoiceInput_requests]; decide)
  exact ⟨h.1, h.2.1⟩

/-- C2: a setup recording whose elapsed wall-clock duration (computed
from the recording start timestamp when the recorder stops) is under
30 seconds is never uploaded: the onstop handler makes no upload call,
shows a user-facing error message, and resets the UI to
`NotRecording`. -/
theorem C2_short_recording_rejected (startMs stopMs : Nat)
    (audioChunks : List Chunk) (resp : UploadResponse)
    (hshort : elapsedSeconds startMs stopMs < 30) :
    (mediaRecorderOnstop startMs stopMs audioChunks resp).requests = [] ∧
    (mediaRecorderOnstop startMs stopMs audioChunks resp).message =
      some "Recording too short. Please record at least 30 seconds." ∧
    (mediaRecorderOnstop startMs stopMs audioChunks resp).finalUI =
      SetupUI.NotRecording := by
  simp [mediaRecorderOnstop, hshort]

/-- Witness for C2: a 5-second recording. -/
theorem C2_short_recording_rejected_witness :
    elapsedSeconds 0 5000 < 30 ∧
    (mediaRecorderOnstop 0 5000 [Chunk.mk [1, 2]]
        (UploadResponse.body true none)).requests = [] := by
  have h : elapsedSeconds 0 5000 < 30 := by
    unfold elapsedSeconds; norm_num
  exact ⟨h,
    (C2_short_recording_rejected 0 5000 [Chunk.mk [1, 2]]
      (UploadResponse.body true none) h).1⟩

/-- C3: a setup recording whose elapsed wall-clock duration is at
least 30 seconds leads to exactly one upload call, whose payload is
the single binary blob assembled from all buffered audio chunks in
order, sent as multipart form data under field name `audio_file` (as
a file named `voice-sample.webm`) to the voice-sample endpoint. -/
theorem C3_long_recording_uploaded (startMs stopMs : Nat)
    (events : List Chunk) (resp : UploadResponse)
    (hlong : 30 ≤ elapsedSeconds startMs stopMs) :
    (mediaRecorderOnstop startMs stopMs (bufferChunks events) resp).requests =
      [⟨"/voice/upload-sample/", "audio_file", "voice-sample.webm",
        assembleBlob (bufferChunks events)⟩] := by
  have h : ¬ elapsedSeconds startMs stopMs < 30 := not_lt.mpr hlong
  rcases resp with msg | ⟨success, e⟩
  · simp [mediaRecorderOnstop, uploadRecording, h]
  · cases success <;> simp [mediaRecorderOnstop, uploadRecording, h]

/-- Witness for C3: a 30-second recording with an empty chunk dropped
by the buffer and the remaining chunks concatenated in order. -/
theorem C3_long_recording_uploaded_witness :
    30 ≤ elapsedSeconds 0 30000 ∧
    (mediaRecorderOnstop 0 30000
        (bufferChunks [Chunk.mk [1, 2], Chunk.mk [], Chunk.mk [3]])
        (UploadResponse.body true none)).requests =
      [⟨"/voice/upload-sample/", "audio_file", "voice-sample.webm",
        assembleBlob
          (bufferChunks [Chunk.mk [1, 2], Chunk.mk [], Chunk.mk [3]])⟩] := by
  have h : 30 ≤ elapsedSeconds 0 30000 := by
    unfold elapsedSeconds; norm_num
  exact ⟨h,
    C3_long_recording_uploaded 0 30000
      [Chunk.mk [1, 2], Chunk.mk [], Chunk.mk [3]]
      (UploadResponse.body true none) h⟩

/-- C5: on an ask-endpoint response `{success:false, error:"X"}` the
voice controller surfaces the error message, shows the error status
with the idle waveform (the `Error` then `Idle` transition of the
spec), never enters the `Speaking` state, and never starts audio
playback. -/
theorem C5_backend_failure_never_speaks (hist : List Turn)
    (text response_text : String) (audio_url : Option String) (msg : String)
    (playOk : Bool) (hne : ¬ jsTrim text = "") :
    (handleVoiceInput hist text
        (.body false response_text audio_url (some msg)) playOk).playedAudio =
      none ∧
    StatusType.speaking ∉
      (handleVoiceInput hist text
        (.body false response_text audio_url (some msg)) playOk).statusTrace ∧
    (handleVoiceInput hist text
        (.body false response_text audio_url (some msg)) playOk).statusTrace =
      [StatusType.processing, StatusType.error] ∧
    (handleVoiceInput hist text
        (.body false response_text audio_url (some msg)) playOk).finalWaveform =
      WaveformState.idle ∧
    (handleVoiceInput hist text
        (.body false response_text audio_url (some msg)) playOk).surfacedError =
      some msg := by
  simp [handleVoiceInput, hne]

/-- Witness for C5 at a concrete failing response. -/
theorem C5_backend_failure_never_speaks_witness :
    ¬ jsTrim "hello" = "" ∧
    (handleVoiceInput [] "hello"
        (.body false "" none (some "X")) true).playedAudio = none ∧
    (handleVoiceInput [] "hello"
        (.body false "" none (some "X")) true).surfacedError = some "X" := by
  have hne : ¬ jsTrim "hello" = "" := by decide
  have h := C5_backend_failure_never_speaks [] "hello" "" none "X" true hne
  exact ⟨hne, h.1, h.2.2.2.2⟩

/-- C6: on an ask-endpoint response with `success:true` and no audio
URL, the voice controller goes directly back to the idle/ready state:
no playback starts and the `Speaking` state is never entered. -/
theorem C6_no_audio_goes_directly_idle (hist : List Turn)
    (text response_text : String) (err : Option String) (playOk : Bool)
    (hne : ¬ jsTrim text = "") :
    (handleVoiceInput hist text
        (.body true response_text none err) playOk).playedAudio = none ∧
    StatusType.speaking ∉
      (handleVoiceInput hist text
        (.body true response_text none err) playOk).statusTrace ∧
    (handleVoiceInput hist text
        (.body true response_text none err) playOk).statusTrace =
      [StatusType.processing, StatusType.ready] ∧
    (handleVoiceInput hist text
        (.body true response_text none err) playOk).finalWaveform =
      WaveformState.idle := by
  simp [handleVoiceInput, hne]

/-- Witness for C6 at a concrete response without an audio URL. -/
theorem C6_no_audio_goes_directly_idle_witness :
    ¬ jsTrim "hello" = "" ∧
    (handleVoiceInput [] "hello"
        (.body true "hi there" none none) true).playedAudio = none ∧
    (handleVoiceInput [] "hello"
        (.body true "hi there" none none) true).statusTrace =
      [StatusType.processing, StatusType.ready] := by
  have hne : ¬ jsTrim "hello" = "" := by decide
  have h := C6_no_audio_goes_directly_idle [] "hello" "hi there" none true hne
  exact ⟨hne, h.1, h.2.2.1⟩

/-- C7: in the chat surface, `speakResponse` cancels any in-flight
synthesis before speaking, so after any invocation exactly the new
utterance is queued (at most one plays at a time), and two invocations
in succession leave only the second one playing, the same state as
speaking only the second (last-write-wins). -/
theorem C7_speech_synthesis_last_write_wins (s : SpeechSynthState)
    (t1 t2 : String) :
    speakResponse true t1 s =
      speechSynthesisSpeak t1 (speechSynthesisCancel s) ∧
    (speakResponse true t1 s).queue = [t1] ∧
    speakResponse true t2 (speakResponse true t1 s) = speakResponse true t2 s ∧
    (speakResponse true t2 (speakResponse true t1 s)).queue = [t2] := by
  simp [speakResponse, speechSynthesisSpeak, speechSynthesisCancel]

/-- Every UI event step other than the asynchronous section swap
preserves the section-gating invariant. -/
theorem sectionInv_uiStep (s : VoicePageState) (e : UiEvent)
    (hnp : ∀ b : Bool, e ≠ UiEvent.profileLoaded b)
    (h : sectionInv s) : sectionInv (uiStep s e) := by
  obtain ⟨ss, ir, irs, n1, n2⟩ := s
  obtain ⟨h1, h2⟩ := h
  rcases e with rOk | _ | _ | ok | _ | b
  case profileLoaded => exact absurd rfl (hnp b)
  all_goals
    cases ss <;> cases ir <;> cases irs <;>
    first
      | (cases rOk <;>
          simp_all [uiStep, startRecording, stopRecording, sectionInv])
      | (cases ok <;>
          simp_all [uiStep, startSetupRecording, stopSetupRecording,
            sectionInv])
      | simp_all [uiStep, startRecording, stopRecording, startSetupRecording,
          stopSetupRecording, sectionInv]

/-- Every state reachable from page load without a mid-session section
swap satisfies the section-gating invariant. -/
theorem sectionInv_runEvents (showSetup : Bool) (es : List UiEvent)
    (hnp : ∀ b : Bool, UiEvent.profileLoaded b ∉ es) :
    sectionInv (runEvents (initState showSetup) es) := by
  suffices h : ∀ s, sectionInv s → sectionInv (runEvents s es) by
    refine h _ ?_
    constructor <;> simp [initState]
  induction es with
  | nil => exact fun s hs => hs
  | cons e rest ih =>
      intro s hs
      simp only [runEvents, List.foldl_cons]
      have he : ∀ b : Bool, e ≠ UiEvent.profileLoaded b := by
        intro b hb
        exact hnp b (by rw [← hb]; exact List.mem_cons_self e rest)
      have hrest : ∀ b : Bool, UiEvent.profileLoaded b ∉ rest := by
        intro b hb
        exact hnp b (List.mem_cons_of_mem e hb)
      exact ih hrest (uiStep s e) (sectionInv_uiStep s e he hs)

/-- C4 as frozen is false in its mutual-exclusion part: starting from
page load with the setup section shown by default, the user starts a
setup recording; the pending `loadVoiceProfile` fetch then resolves
with an active profile and swaps in the conversation section without
inspecting or stopping the running recorder (voice.js lines 108-132);
pressing the now-visible talk button runs `startRecording`, whose only
guards are `recognition` and `isRecording`, so both recording flags
end up true and both capture sessions (MediaRecorder and speech
recognition) are live at once. -/
theorem C4_concurrent_sessions_counterexample :
    (runEvents (initState true)
      [UiEvent.pressSetupRecord true, UiEvent.profileLoaded false,
       UiEvent.pressRecord true]).isRecording = true ∧
    (runEvents (initState true)
      [UiEvent.pressSetupRecord true, UiEvent.profileLoaded false,
       UiEvent.pressRecord true]).isRecordingSetup = true ∧
    (runEvents (initState true)
      [UiEvent.pressSetupRecord true, UiEvent.profileLoaded false,
       UiEvent.pressRecord true]).recognitionSessions = 1 ∧
    (runEvents (initState true)
      [UiEvent.pressSetupRecord true, UiEvent.profileLoaded false,
       UiEvent.pressRecord true]).mediaSessions = 1 := by
  decide

/-- C4 (amended): starting a recording while the same mode is already
recording is a no-op — the state (flags and capture-session counters)
is unchanged, so no second capture session of that mode is created —
and the two recording modes exclude each other in every state
reachable from page load without a mid-session section swap; mutual
exclusion is not unconditional, because the asynchronous
`loadVoiceProfile` completion can swap the displayed section while a
setup recording is active. -/
theorem C4_start_while_recording_noop :
    (∀ (recognitionOk : Bool) (s : VoicePageState), s.isRecording = true →
        startRecording recognitionOk s = s) ∧
    (∀ (ok : Bool) (s : VoicePageState), s.isRecordingSetup = true →
        startSetupRecording ok s = s) ∧
    (∀ (showSetup : Bool) (es : List UiEvent),
        (∀ b : Bool, UiEvent.profileLoaded b ∉ es) →
        ¬((runEvents (initState showSetup) es).isRecording = true ∧
          (runEvents (initState showSetup) es).isRecordingSetup = true)) := by
  refine ⟨?_, ?_, ?_⟩
  · intro rOk s h
    simp [startRecording, h]
  · intro ok s h
    simp [startSetupRecording, h]
  · intro ss es hnp hcontra
    obtain ⟨h1, h2⟩ := hcontra
    obtain ⟨hA, hB⟩ := sectionInv_runEvents ss es hnp
    have hx := hA h1
    have hy := hB h2
    rw [hx] at hy
    exact Bool.false_ne_true hy

/-- Witness for the amended C4: re-pressing either record control
while its mode is recording leaves the concrete state untouched, and a
swap-free event sequence never has both modes active. -/
theorem C4_start_while_recording_noop_witness :
    startRecording true (VoicePageState.mk false true false 1 0) =
      VoicePageState.mk false true false 1 0 ∧
    startSetupRecording true (VoicePageState.mk true false true 0 1) =
      VoicePageState.mk true false true 0 1 ∧
    ¬((runEvents (initState true) [UiEvent.pressSetupRecord true]).isRecording =
        true ∧
      (runEvents (initState true)
        [UiEvent.pressSetupRecord true]).isRecordingSetup = true) :=
  ⟨C4_start_while_recording_noop.1 true (VoicePageState.mk false true false 1 0)
      rfl,
   C4_start_while_recording_noop.2.1 true
      (VoicePageState.mk true false true 0 1) rfl,
   C4_start_while_recording_noop.2.2 true [UiEvent.pressSetupRecord true]
      (by decide)⟩

/-- C8: evaluation of the setup-recording exit paths.  The normal-stop
and recorder-error paths do stop all acquired input device tracks (the
first action of the onstop handler), but the claim fails on the third
exit path it names: when `MediaRecorder` construction or
`mediaRecorder.start` throws after `getUserMedia` already resolved,
the catch block of `startSetupRecording` (voice.js lines 585-598) only
shows a message and resets the UI — it never stops the tracks of the
acquired stream, leaving the microphone handle active. -/
theorem C8_setup_failure_leaks_tracks :
    (startSetupRecordingRun
        (SetupRun.recorded 0 35000 [Chunk.mk [1]]
          (UploadResponse.body true none))).tracksReleased = true ∧
    (startSetupRecordingRun
        (SetupRun.recorderError "err" 0 35000 [Chunk.mk [1]]
          (UploadResponse.body true none))).tracksReleased = true ∧
    (startSetupRecordingRun
        (SetupRun.setupFailure "NotSupportedError")).micAcquired = true ∧
    (startSetupRecordingRun
        (SetupRun.setupFailure "NotSupportedError")).tracksReleased = false := by
  refine ⟨?_, ?_, rfl, rfl⟩ <;>
    · simp only [startSetupRecordingRun, mediaRecorderOnstop]
      split <;> rfl

/-- C9 as frozen is false: a user turn from a failed exchange stays in
the local history, but it is not in the context window of every later
request.  Concretely: the exchange for `t0` fails (the `user` turn
`t0` is kept), five successful exchanges follow (ten more turns), and
the next request then carries only the 10 most recent turns of the
12-turn history, which exclude the `t0` turn. -/
theorem C9_window_eviction_counterexample :
    (handleVoiceInput []
      "t0" (.body false "" none (some "boom")) true).history =
      [Turn.mk Role.user "t0"] ∧
    ∃ r ∈ (handleVoiceInput
        (handleVoiceInput
          (handleVoiceInput
            (handleVoiceInput
              (handleVoiceInput
                (handleVoiceInput
                  (handleVoiceInput []
                    "t0" (.body false "" none (some "boom")) true).history
                  "t1" (.body true "r1" none none) true).history
                "t2" (.body true "r2" none none) true).history
              "t3" (.body true "r3" none none) true).history
            "t4" (.body true "r4" none none) true).history
          "t5" (.body true "r5" none none) true).history
        "t6" (.body true "r6" none none) true).requests,
      Turn.mk Role.user "t0" ∉ r.conversation_history := by
  decide

/-- C9 (amended): on every failed ask exchange in the voice page, the
user turn appended before the request remains in the local history —
the error path does not roll it back — and it is therefore contained
in the context window of the immediately following request (it stays
in later windows only while it is among the 10 most recent turns). -/
theorem C9_failed_turn_retained (hist : List Turn) (text : String)
    (resp : AskResponse) (playOk : Bool)
    (hne : ¬ jsTrim text = "") (hfail : askFailed resp = true) :
    (handleVoiceInput hist text resp playOk).history =
      hist ++ [Turn.mk Role.user text] ∧
    ∀ (text2 : String) (resp2 : AskResponse) (playOk2 : Bool),
      ¬ jsTrim text2 = "" →
      ∀ r ∈ (handleVoiceInput
          (handleVoiceInput hist text resp playOk).history
          text2 resp2 playOk2).requests,
        Turn.mk Role.user text ∈ r.conversation_history := by
  have hhist : (handleVoiceInput hist text resp playOk).history =
      hist ++ [Turn.mk Role.user text] := by
    rcases resp with msg | ⟨success, rt, au, e⟩
    · simp [handleVoiceInput, hne]
    · cases success
      · simp [handleVoiceInput, hne]
      · simp [askFailed] at hfail
  refine ⟨hhist, ?_⟩
  intro text2 resp2 playOk2 hne2 r hr
  rw [handleVoiceInput_requests, if_neg hne2, List.mem_singleton] at hr
  subst hr
  show Turn.mk Role.user text ∈
    sliceLast10 ((handleVoiceInput hist text resp playOk).history ++
      [Turn.mk Role.user text2])
  rw [hhist, List.append_assoc]
  exact mem_sliceLast10_append_two hist (Turn.mk Role.user text)
    (Turn.mk Role.user text2)

/-- Witness for the amended C9: after a failed exchange for `hello`,
the turn is still in the history and inside the window of the next
request. -/
theorem C9_failed_turn_retained_witness :
    (handleVoiceInput [] "hello" (.httpFailure "down") true).history =
      [] ++ [Turn.mk Role.user "hello"] ∧
    Turn.mk Role.user "hello" ∈
      (AskRequest.mk "/voice/ask/" "again"
        (sliceLast10 [Turn.mk Role.user "hello",
          Turn.mk Role.user "again"])).conversation_history := by
  have h := C9_failed_turn_retained [] "hello" (.httpFailure "down") true
    (by decide) (by decide)
  refine ⟨h.1, ?_⟩
  refine h.2 "again" (.body true "ok" none none) true (by decide)
    (AskRequest.mk "/voice/ask/" "again"
      (sliceLast10 [Turn.mk Role.user "hello", Turn.mk Role.user "again"]))
    ?_
  rw [handleVoiceInput_requests]
  decide

/-- The function `handleFiles` only ever appends to the selected-files list. -/
theorem handleFiles_extends (fs : List FileEntry) :
    ∀ s : List FileEntry, ∃ t, handleFiles s fs = s ++ t := by
  induction fs with
  | nil =>
      intro s
      exact ⟨[], by simp [handleFiles]⟩
  | cons f rest ih =>
      intro s
      by_cases h : s.any (fun g => fileMatches g f) = true
      · obtain ⟨t, ht⟩ := ih s
        refine ⟨t, ?_⟩
        simp only [handleFiles, List.foldl_cons, if_pos h] at ht ⊢
        exact ht
      · obtain ⟨t, ht⟩ := ih (s ++ [f])
        refine ⟨[f] ++ t, ?_⟩
        simp only [handleFiles, List.foldl_cons, if_neg h] at ht ⊢
        rw [ht, List.append_assoc]

/-- After `handleFiles`, every incoming file has a (name, size) match
in the resulting selected-files list. -/
theorem handleFiles_covers (fs : List FileEntry) :
    ∀ (s : List FileEntry) (f0 : FileEntry), f0 ∈ fs →
      (handleFiles s fs).any (fun g => fileMatches g f0) = true := by
  induction fs with
  | nil =>
      intro s f0 h
      simp at h
  | cons f rest ih =>
      intro s f0 hmem
      rcases List.mem_cons.mp hmem with rfl | hmem2
      · by_cases h : s.any (fun g => fileMatches g f0) = true
        · obtain ⟨t, ht⟩ := handleFiles_extends rest s
          simp only [handleFiles, List.foldl_cons, if_pos h]
          show (handleFiles s rest).any (fun g => fileMatches g f0) = true
          rw [ht, List.any_append, h]
          rfl
        · obtain ⟨t, ht⟩ := handleFiles_extends rest (s ++ [f0])
          simp only [handleFiles, List.foldl_cons, if_neg h]
          show (handleFiles (s ++ [f0]) rest).any
            (fun g => fileMatches g f0) = true
          rw [ht, List.any_append, List.any_append]
          have hself : fileMatches f0 f0 = true := by
            simp [fileMatches]
          simp [hself]
      · by_cases h : s.any (fun g => fileMatches g f) = true
        · simp only [handleFiles, List.foldl_cons, if_pos h]
          exact ih s f0 hmem2
        · simp only [handleFiles, List.foldl_cons, if_neg h]
          exact ih (s ++ [f]) f0 hmem2

/-- When every incoming file already has a (name, size) match,
`handleFiles` changes nothing. -/
theorem handleFiles_of_covered (fs : List FileEntry) :
    ∀ s : List FileEntry,
      (∀ f ∈ fs, s.any (fun g => fileMatches g f) = true) →
      handleFiles s fs = s := by
  induction fs with
  | nil =>
      intro s _
      simp [handleFiles]
  | cons f rest ih =>
      intro s hcov
      have hf : s.any (fun g => fileMatches g f) = true := hcov f (by simp)
      simp only [handleFiles, List.foldl_cons, if_pos hf]
      exact ih s (fun x hx => hcov x (by simp [hx]))

/-- C10: the onboarding file picker is idempotent with respect to
(name, size) pairs: `handleFiles` skips an incoming file whose name
and size both match an already selected file, and applying
`handleFiles` twice with the same file list yields the same
selected-files state as applying it once. -/
theorem C10_handleFiles_idempotent :
    (∀ (s : List FileEntry) (file : FileEntry) (rest : List FileEntry),
        s.any (fun f => fileMatches f file) = true →
        handleFiles s (file :: rest) = handleFiles s rest) ∧
    (∀ s fs : List FileEntry,
        handleFiles (handleFiles s fs) fs = handleFiles s fs) := by
  constructor
  · intro s file rest h
    simp only [handleFiles, List.foldl_cons, if_pos h]
  · intro s fs
    exact handleFiles_of_covered fs (handleFiles s fs)
      (fun f hf => handleFiles_covers fs s f hf)

/-- Witness for C10 at a concrete duplicate file. -/
theorem C10_handleFiles_idempotent_witness :
    ([FileEntry.mk "a.txt" 3] : List FileEntry).any
      (fun f => fileMatches f (FileEntry.mk "a.txt" 3)) = true ∧
    handleFiles [FileEntry.mk "a.txt" 3] [FileEntry.mk "a.txt" 3] =
      handleFiles [FileEntry.mk "a.txt" 3] [] ∧
    handleFiles (handleFiles [] [FileEntry.mk "a.txt" 3])
        [FileEntry.mk "a.txt" 3] =
      handleFiles [] [FileEntry.mk "a.txt" 3] := by
  refine ⟨by decide, ?_, ?_⟩
  · exact C10_handleFiles_idempotent.1 [FileEntry.mk "a.txt" 3]
      (FileEntry.mk "a.txt" 3) [] (by decide)
  · exact C10_handleFiles_idempotent.2 [] [FileEntry.mk "a.txt" 3]

end AgentTwin
